import Mathlib

/-!
# Verification of the MovieDb rate-limited request scheduler

Shallow embedding of `src/moviedb.ts` (class `MovieDb`): the quota tracker
(`limit.remaining` / `limit.reset`), the pending request queue, the drain
routine `checkQueue`, the endpoint resolver `prepareEndpoint`, the dispatch
path of `makeRequest`, and the promise-rejection handler attached to the
transport call.

JavaScript numbers are modelled as `Option Int` (milliseconds / counters),
with `none` standing for `NaN`: every comparison against `NaN` is false and
arithmetic on `NaN` yields `NaN`, exactly as in JS.  `types.ts` is not part
of the sources; the shapes of `LimitOptions`, `MovieDbOptions`,
`RequestOptions` and `HttpMethod` are reconstructed from their uses in
`moviedb.ts`.
-/

set_option autoImplicit false

/-! ## JavaScript number semantics (`none` = NaN) -/

def jsSub : Option Int → Option Int → Option Int
  | some a, some b => some (a - b)
  | _, _ => none

def jsAdd : Option Int → Option Int → Option Int
  | some a, some b => some (a + b)
  | _, _ => none

def jsMul : Option Int → Option Int → Option Int
  | some a, some b => some (a * b)
  | _, _ => none

/-- `x > 0` in JS; false on NaN. -/
def jsGtZ : Option Int → Bool
  | some a => decide (0 < a)
  | none => false

/-- `x <= 0` in JS; false on NaN. -/
def jsLeZ : Option Int → Bool
  | some a => decide (a ≤ 0)
  | none => false

/-- `x < y` in JS; false when either side is NaN. -/
def jsLt : Option Int → Option Int → Bool
  | some a, some b => decide (a < b)
  | _, _ => false

/-- `!x` for a JS number: `0` and `NaN` are falsy. -/
def jsFalsy : Option Int → Bool
  | some a => decide (a = 0)
  | none => true

/-- `x--` on a JS number; NaN stays NaN. -/
def jsDec : Option Int → Option Int
  | some a => some (a - 1)
  | none => none

/-! ## String helpers mirroring the regexes of `moviedb.ts` -/

/-- `[a-z]` under the `i` flag: an ASCII letter. -/
def jsLetter (c : Char) : Bool :=
  (('a' ≤ c) && (c ≤ 'z')) || (('A' ≤ c) && (c ≤ 'Z'))

/-- Substring test on character lists (JS `String.prototype.includes`). -/
def listHasSub (pat : List Char) : List Char → Bool
  | [] => pat.isEmpty
  | c :: t => pat.isPrefixOf (c :: t) || listHasSub pat t

def strContains (s pat : String) : Bool :=
  listHasSub pat.toList s.toList

/-- JS `s.startsWith('?')`. -/
def startsWithQm (s : String) : Bool :=
  match s.toList with
  | '?' :: _ => true
  | _ => false

/-- `(s.match(/:/g) || []).length` — the number of colons in `s`. -/
def countColons (s : String) : Nat :=
  s.toList.count ':'

/-- JS `String.prototype.replace` with a plain-string pattern: replaces only
the first occurrence (and, like JS, an empty pattern matches at index 0). -/
def replaceFirstList (pat rep : List Char) : List Char → List Char
  | [] => []
  | c :: t =>
    if pat.isPrefixOf (c :: t) then rep ++ (c :: t).drop pat.length
    else c :: replaceFirstList pat rep t

theorem dropWhileLenLe (p : Char → Bool) (l : List Char) :
    (l.dropWhile p).length ≤ l.length := by
  induction l with
  | nil => simp [List.dropWhile]
  | cons c t ih =>
    simp only [List.dropWhile]
    cases p c with
    | true => exact Nat.le_succ_of_le ih
    | false => exact Nat.le_refl _

/-- `s.replace(/:[a-z]*/gi, rep)`: every colon together with the maximal run
of letters after it is replaced by `rep`; scanning resumes after the match. -/
def replaceColonRuns (rep : List Char) : List Char → List Char
  | [] => []
  | c :: t =>
    if c = ':' then rep ++ replaceColonRuns rep (t.dropWhile jsLetter)
    else c :: replaceColonRuns rep t
termination_by l => l.length
decreasing_by
  · simp only [List.length_cons]
    exact Nat.lt_succ_of_le (dropWhileLenLe _ _)
  · simp only [List.length_cons]
    exact Nat.lt_succ_self _

/-- `(endpoint.match(/:[a-z]/gi) || []).map(prop => prop.substr(1))`:
each match is a colon followed by ONE letter (the regex has no `*`), and
`substr(1)` keeps just that letter. -/
def colonLetterProps : List Char → List String
  | [] => []
  | ':' :: c :: t =>
    if jsLetter c then String.singleton c :: colonLetterProps t
    else colonLetterProps (c :: t)
  | _ :: t => colonLetterProps t

/-- JS `parseInt` (decimal): skip leading whitespace, optional sign, then the
maximal run of digits; `NaN` (here `none`) when no digit is found, including
`parseInt(undefined)`. Trailing garbage after the digits is ignored. -/
def parseIntJs : Option String → Option Int
  | none => none
  | some s =>
    let l := s.toList.dropWhile (fun c => c = ' ' || c = '\t' || c = '\n' || c = '\r')
    let signAndRest : Bool × List Char :=
      match l with
      | '-' :: t => (true, t)
      | '+' :: t => (false, t)
      | _ => (false, l)
    let ds := signAndRest.2.takeWhile Char.isDigit
    if ds.isEmpty then none
    else
      let v : Int := (ds.foldl (fun a c => a * 10 + (c.toNat - 48)) 0 : Nat)
      some (if signAndRest.1 then -v else v)

/-! ## Data model (shapes of `types.ts`, reconstructed from usage) -/

inductive HttpMethod where
  | get
  | post
  | put
  | del
deriving DecidableEq, Repr

structure MovieDbOptions where
  useDefaultLimits : Bool
  baseUrl : String
deriving DecidableEq, Repr

structure LimitOptions where
  remaining : Option Int
  reset : Option Int
deriving DecidableEq, Repr

structure RequestOptions where
  appendToResponse : Option String := none
  timeout : Option Int := none
deriving DecidableEq, Repr

/-- `params: string | RequestParams` — a raw query string or a key→value bag
(`RequestParams` keys in insertion order, values coerced to strings). -/
inductive RParams where
  | str (s : String)
  | obj (l : List (String × String))
deriving DecidableEq, Repr

/-- lodash `isString`. -/
def rIsString : RParams → Bool
  | .str _ => true
  | .obj _ => false

/-- lodash `isEmpty`: true for the empty string and the empty object. -/
def rIsEmptyP : RParams → Bool
  | .str s => s == ""
  | .obj l => l.isEmpty

def rObjList : RParams → List (String × String)
  | .str _ => []
  | .obj l => l

/-- Truthiness of `this.sessionId` / other optional strings. -/
def sessionTruthy : Option String → Bool
  | some s => !(s == "")
  | none => false

/-! ## Endpoint resolver (`prepareEndpoint`, lines 109–128) -/

def prepareEndpoint (endpoint : String) (params : RParams) : String :=
  -- line 112: isString(params) && (endpoint.match(/:/g) || []).length === 1
  let e1 :=
    match params with
    | .str s =>
      if countColons endpoint == 1 then
        String.mk (replaceColonRuns s.toList endpoint.toList)
      else endpoint
    | .obj _ => endpoint
  -- line 117: isObject(params) && !isEmpty(params); reduce over Object.keys
  let e2 :=
    match params with
    | .obj l =>
      if l.isEmpty then e1
      else l.foldl (fun compiled kv =>
        String.mk (replaceFirstList (":" ++ kv.1).toList kv.2.toList compiled.toList)) e1
    | .str _ => e1
  -- line 123: isString(params) → append as query string
  match params with
  | .str s => e2 ++ (if startsWithQm s then "" else "?") ++ s
  | .obj _ => e2

/-! ## Scheduler state and the drain routine (`checkQueue`, lines 78–107) -/

/-- An entry of `this.requestQueue` as pushed on line 140:
`{ method, endpoint, params, options }`.  (The push on line 193 is never
reached: evaluating the undefined identifier `createAndStartRequest` throws a
ReferenceError first, see `catchHandler`.) -/
structure QueueItem where
  method : Option HttpMethod
  endpoint : Option String
  params : RParams
  options : RequestOptions
deriving DecidableEq, Repr

/-- The mutable state touched by the scheduler: `this.limit` and
`this.requestQueue`. -/
structure MState where
  limit : LimitOptions
  requestQueue : List QueueItem
deriving DecidableEq, Repr

/-- Lines 85–91 of `checkQueue`: compute `delay = this.limit.reset - Date.now()`;
if `delay > 0` schedule the next wake at `delay` (second component), else set
`this.limit.remaining = 40`.  Note the source never writes `this.limit.reset`
here. -/
def windowStep (limit : LimitOptions) (now : Int) : LimitOptions × Option Int :=
  let delay := jsSub limit.reset (some now)
  if jsGtZ delay then (limit, delay)
  else ({ limit with remaining := some 40 }, none)

/-- Observable effect of one `checkQueue()` call. -/
structure DrainResult where
  /-- `this.limit` afterwards. -/
  limit : LimitOptions
  /-- `this.requestQueue` afterwards. -/
  queue : List QueueItem
  /-- Delay of the `setTimeout(this.checkQueue, delay)` on line 88, if taken. -/
  scheduled : Option Int
  /-- Items removed from the queue by `shift()` on line 95, in pop order. -/
  popped : List QueueItem
  /-- Whether the call terminated by an uncaught exception. -/
  threw : Bool
deriving DecidableEq, Repr

/-- `checkQueue` (lines 78–107).  With a non-empty queue it runs `windowStep`
and then, if `this.limit.remaining > 0`, enters the for-loop of line 94.  The
first iteration shifts the head and calls `this.makeRequest()` with NO
arguments (line 98): there `endpoint` is `undefined`, so after the guard on
line 139 (false, since `remaining > 0` here) and the decrement on line 145,
the expression `endpoint.includes(':id')` on line 151 throws a TypeError.
The exception propagates, so `sendRequest.start` (line 99), the rest of the
loop, and the `setTimeout` on line 103 are never reached: one item is popped,
`remaining` is decremented once, nothing is dispatched. -/
def checkQueue (limit : LimitOptions) (queue : List QueueItem) (now : Int) :
    DrainResult :=
  if queue.isEmpty then ⟨limit, queue, none, [], false⟩
  else
    let ws := windowStep limit now
    if jsGtZ ws.1.remaining then
      ⟨{ ws.1 with remaining := jsDec ws.1.remaining }, queue.tail, ws.2,
        queue.take 1, true⟩
    else ⟨ws.1, queue, ws.2, [], false⟩

/-! ## Dispatch (`makeRequest`, lines 130–180) -/

/-- The argument object handed to `axios.request` on line 182. -/
structure OutgoingRequest where
  method : Option HttpMethod
  baseUrl : String
  url : String
  params : List (String × String)
  data : List (String × String)
  timeout : Option Int
deriving DecidableEq, Repr

inductive MrOutcome where
  /-- Lines 140–142: pushed onto `this.requestQueue`; the transport is not
  called.  (The caller actually receives `checkQueue`'s return value — the
  `this.makeRequest` function object — not a pending promise.) -/
  | queued
  /-- Line 182 reached: the request is executed via the transport. -/
  | executed (req : OutgoingRequest)
deriving DecidableEq, Repr

/-- lodash `merge(base, ext)` on flat string→string objects: keys already in
`base` are overwritten in place, new keys are appended in `ext` order. -/
def mergeAList (base ext : List (String × String)) : List (String × String) :=
  ext.foldl (fun acc kv =>
    if acc.any (fun p => p.1 == kv.1) then
      acc.map (fun p => if p.1 == kv.1 then (p.1, kv.2) else p)
    else acc ++ [kv]) base

/-- lodash `omit(l, ks)`. -/
def omitKeys (l : List (String × String)) (ks : List String) :
    List (String × String) :=
  l.filter (fun kv => !(ks.contains kv.1))

/-- The object literal of lines 167–171 before the merge: `api_key`, then
`session_id` when `this.sessionId` is truthy, then `append_to_response` when
`options.appendToResponse` is truthy. -/
def baseQuery (apiKey : String) (sessionId : Option String)
    (options : RequestOptions) : List (String × String) :=
  [("api_key", apiKey)]
    ++ (match sessionId with
        | some s => if s == "" then [] else [("session_id", s)]
        | none => [])
    ++ (match options.appendToResponse with
        | some a => if a == "" then [] else [("append_to_response", a)]
        | none => [])

/-- `makeRequest` up to the transport call (lines 130–182), for a call with a
defined `endpoint`.  Rate limiting (lines 138–146), the `:id`/session default
(lines 151–155), the string→`{}` normalization (lines 157–159), the omit of
`/:[a-z]/gi`-matched props (lines 163–171) and the request object
(lines 173–180). -/
def makeRequest (apiKey : String) (sessionId : Option String)
    (opts : MovieDbOptions) (st : MState) (method : Option HttpMethod)
    (endpoint : String) (params : RParams) (options : RequestOptions)
    (now : Int) : MState × MrOutcome :=
  if opts.useDefaultLimits && jsLeZ st.limit.remaining then
    let q := st.requestQueue ++ [⟨method, some endpoint, params, options⟩]
    let d := checkQueue st.limit q now
    (⟨d.limit, d.queue⟩, .queued)
  else
    let limit1 :=
      if opts.useDefaultLimits then
        { st.limit with remaining := jsDec st.limit.remaining }
      else st.limit
    let params1 :=
      if strContains endpoint ":id" && rIsEmptyP params && sessionTruthy sessionId
      then RParams.obj [("id", "\x7baccount_id\x7d")]
      else params
    let params2 := if rIsString params1 then RParams.obj [] else params1
    let omitted := colonLetterProps endpoint.toList
    let query := mergeAList (baseQuery apiKey sessionId options)
      (omitKeys (rObjList params2) omitted)
    (⟨limit1, st.requestQueue⟩,
      .executed ⟨method, opts.baseUrl, prepareEndpoint endpoint params2, query,
        query,
        match options.timeout with
        | some t => if t == 0 then none else some t
        | none => none⟩)

/-! ## The rejection handler (lines 182–209) -/

/-- `err.response`: a status and (as the code reads it on lines 189 and
203–204) a `header` map.  A network error has no response at all. -/
structure RespData where
  status : Option Int
  header : Option (List (String × String))
deriving DecidableEq, Repr

/-- How the caller's promise settles after the `.catch` handler runs. -/
inductive CatchOutcome where
  /-- The handler returns `undefined`: `Promise.reject(err)` on line 207 is
  not returned, so the caller's promise FULFILS with `undefined`. -/
  | fulfilledUndefined
  /-- Rejection with the original error — what a correct handler would
  produce; the code never produces it. -/
  | rejectedOriginal
  /-- A TypeError thrown inside the handler (reading `res.header[...]` when
  `res.header` is `undefined`); the caller's promise rejects with it. -/
  | threwTypeError
  /-- The ReferenceError from evaluating the undefined identifier
  `createAndStartRequest` on line 194; the caller's promise rejects with it,
  and the push on line 193 never happens. -/
  | threwReferenceError
deriving DecidableEq, Repr

/-- Line 190: `(retryAfter <= 0 ? 0.5 : retryAfter) * 1000`, in integer
milliseconds (`0.5 * 1000 = 500`); NaN propagates. -/
def retryResetDelta (retryAfter : Option Int) : Option Int :=
  if jsLeZ retryAfter then some 500 else jsMul retryAfter (some 1000)

/-- The `.catch` handler of lines 182–209.  It can only read and write
`this.limit`; the queue push on line 193 is unreachable (ReferenceError). -/
def catchHandler (opts : MovieDbOptions) (limit : LimitOptions)
    (response : Option RespData) (now : Int) : LimitOptions × CatchOutcome :=
  let res := response.getD ⟨none, none⟩
  if opts.useDefaultLimits && (res.status == some 429) then
    if jsFalsy limit.reset || jsLt limit.reset (some now) then
      match res.header with
      | none => (limit, .threwTypeError)
      | some h =>
        ({ limit with
            reset := jsAdd (some now)
              (retryResetDelta (parseIntJs (h.lookup "retry-after"))) },
          .threwReferenceError)
    else (limit, .threwReferenceError)
  else if opts.useDefaultLimits then
    match res.header with
    | none => (limit, .threwTypeError)
    | some h =>
      (⟨parseIntJs (h.lookup "x-ratelimit-remaining"),
        jsMul (parseIntJs (h.lookup "x-ratelimit-reset")) (some 1000)⟩,
        .fulfilledUndefined)
  else (limit, .fulfilledUndefined)

/-! ## Claims about admission, rollover and drain -/

/-- Claim C1: under rate limiting, a submission with `remaining == 0` and
`resetAt` in the future is not executed but appended to the pending queue
(length +1), leaving `remaining` (and `reset`) unchanged; with
`remaining = k > 0` the request is admitted, `remaining` drops to `k - 1`,
and the queue is untouched. -/
theorem c1_rate_limit_admission (apiKey : String) (sid : Option String)
    (b : String) (rst : Option Int) (q : List QueueItem)
    (m : Option HttpMethod) (e : String) (p : RParams) (o : RequestOptions)
    (now : Int) :
    (jsGtZ (jsSub rst (some now)) = true →
      makeRequest apiKey sid ⟨true, b⟩ ⟨⟨some 0, rst⟩, q⟩ m e p o now
        = (⟨⟨some 0, rst⟩, q ++ [⟨m, some e, p, o⟩]⟩, .queued)) ∧
    (∀ k : Int, 0 < k →
      ∃ req, makeRequest apiKey sid ⟨true, b⟩ ⟨⟨some k, rst⟩, q⟩ m e p o now
        = (⟨⟨some (k - 1), rst⟩, q⟩, .executed req)) := by
  constructor
  · intro hf
    have hne : (q ++ [(⟨m, some e, p, o⟩ : QueueItem)]).isEmpty = false := by
      cases q <;> rfl
    have h0 : jsLeZ (some 0) = true := rfl
    have h1 : jsGtZ (some 0) = false := rfl
    simp [makeRequest, checkQueue, windowStep, hne, hf, h0, h1]
  · intro k hk
    have hb : jsLeZ (some k) = false := by
      simp only [jsLeZ, decide_eq_false_iff_not]
      omega
    simp [makeRequest, hb, jsDec]

/-- Witness for C1 at concrete inputs: the queue path at
`remaining = 0`, `reset = 100`, `now = 50`, and the admission path at
`remaining = 5`. -/
theorem c1_rate_limit_admission_witness :
    makeRequest "k" none ⟨true, "b"⟩ ⟨⟨some 0, some 100⟩, []⟩ none
        "movie/top" (.obj []) ⟨none, none⟩ 50
      = (⟨⟨some 0, some 100⟩, [⟨none, some "movie/top", .obj [], ⟨none, none⟩⟩]⟩,
          .queued) ∧
    (makeRequest "k" none ⟨true, "b"⟩ ⟨⟨some 5, some 100⟩, []⟩ none
        "movie/top" (.obj []) ⟨none, none⟩ 50).1
      = ⟨⟨some 4, some 100⟩, []⟩ := by
  constructor
  · exact (c1_rate_limit_admission "k" none "b" (some 100) [] none
      "movie/top" (.obj []) ⟨none, none⟩ 50).1 (by decide)
  · obtain ⟨req, hreq⟩ := (c1_rate_limit_admission "k" none "b" (some 100) []
      none "movie/top" (.obj []) ⟨none, none⟩ 50).2 5 (by decide)
    have h1 := congrArg Prod.fst hreq
    norm_num at h1
    exact h1

/-- Claim C2 is false on the code: the rollover (lines 85–91) restores
`remaining` to 40 when `now ≥ reset`, but it never advances `reset`.  Here,
at `reset = 100` and `now = 200`, `reset` stays 100 (which is not in the
future), and a later call in the same elapsed window (`now = 205`) restores
`remaining` to 40 again — not exactly once per elapsed window. -/
theorem c2_no_reset_advance_cex :
    (windowStep ⟨some 5, some 100⟩ 200).1 = ⟨some 40, some 100⟩ ∧
    ¬ (200 : Int) < 100 ∧
    (windowStep ⟨some 12, some 100⟩ 205).1.remaining = some 40 := by decide

/-- Claim C2 (amended): whenever `now ≥ resetAt`, the rollover restores
`remaining` to the ceiling 40 and leaves `resetAt` unchanged (it is not
advanced), scheduling no wake; hence the restore recurs on every call while
`resetAt` stays in the past. -/
theorem c2_window_restore (L : LimitOptions) (now t : Int)
    (hr : L.reset = some t) (h : t ≤ now) :
    (windowStep L now).1.remaining = some 40 ∧
    (windowStep L now).1.reset = L.reset ∧
    (windowStep L now).2 = none := by
  have hb : jsGtZ (jsSub L.reset (some now)) = false := by
    rw [hr]
    simp only [jsSub, jsGtZ, decide_eq_false_iff_not]
    omega
  simp [windowStep, hb]

/-- Witness for the amended C2 at `reset = 100 ≤ now = 200`. -/
theorem c2_window_restore_witness :
    (windowStep ⟨some 5, some 100⟩ 200).1.remaining = some 40 ∧
    (windowStep ⟨some 5, some 100⟩ 200).1.reset = some 100 ∧
    (windowStep ⟨some 5, some 100⟩ 200).2 = none :=
  c2_window_restore ⟨some 5, some 100⟩ 200 100 rfl (by decide)

/-- A concrete queued request (shape of the push on line 140). -/
def qiA : QueueItem := ⟨none, some "first", .obj [], ⟨none, none⟩⟩

/-- A second concrete queued request. -/
def qiB : QueueItem := ⟨none, some "second", .obj [], ⟨none, none⟩⟩

/-- Claim C3 is false on the code: with `resetAt` in the future
(`reset = 1000`, `now = 0`, so `delay = 1000 > 0`) but `remaining = 1 > 0`,
`checkQueue` does not return after scheduling — it falls through to the loop
on line 93, pops the queued request, and mutates `remaining` (the loop's
argument-less `makeRequest()` decrements it and then throws). -/
theorem c3_premature_pop_cex :
    (checkQueue ⟨some 1, some 1000⟩ [qiA] 0).popped = [qiA] ∧
    (checkQueue ⟨some 1, some 1000⟩ [qiA] 0).limit.remaining = some 0 ∧
    (checkQueue ⟨some 1, some 1000⟩ [qiA] 0).threw = true ∧
    jsGtZ (jsSub (some 1000) (some 0)) = true := by decide

/-- Claim C3 (amended): a drain invocation with `delay = resetAt - now > 0`
only schedules its next wake at that delay, pops nothing, dispatches nothing
and leaves the quota untouched — provided additionally `remaining > 0` does
not hold; when `remaining > 0` the loop still runs despite the future
`resetAt` (see `c3_premature_pop_cex`). -/
theorem c3_drain_future_reset (L : LimitOptions) (q : List QueueItem)
    (now d : Int) (hq : q.isEmpty = false)
    (hd : jsSub L.reset (some now) = some d) (hdp : 0 < d)
    (hr : jsGtZ L.remaining = false) :
    checkQueue L q now = ⟨L, q, some d, [], false⟩ := by
  have h3 : jsGtZ (some d) = true := by
    simp only [jsGtZ, decide_eq_true_eq]
    omega
  simp [checkQueue, windowStep, hq, hd, h3, hr]

/-- Witness for the amended C3 at `remaining = 0`, `reset = 1000`, `now = 0`. -/
theorem c3_drain_future_reset_witness :
    checkQueue ⟨some 0, some 1000⟩ [qiA] 0
      = ⟨⟨some 0, some 1000⟩, [qiA], some 1000, [], false⟩ :=
  c3_drain_future_reset ⟨some 0, some 1000⟩ [qiA] 0 1000 rfl rfl
    (by decide) rfl

/-- Claim C4's FIFO dispatch never happens: draining a queue `[qiA, qiB]`
with exhausted quota and an elapsed window restores `remaining` to 40, pops
`qiA` (head first, as claimed), but the loop's argument-less `makeRequest()`
call decrements `remaining` to 39 and throws a TypeError (`endpoint` is
`undefined` at line 151) before `sendRequest.start` on line 99 can run:
neither request is dispatched, `qiA` is dropped, `qiB` stays queued. -/
theorem c4_drain_crashes_before_dispatch :
    checkQueue ⟨some 0, some 100⟩ [qiA, qiB] 200
      = ⟨⟨some 39, some 100⟩, [qiB], none, [qiA], true⟩ := by decide

/-! ## Claims about the rejection handler -/

/-- Claim C5: on a 429 rejection whose `retry-after` header parses to `r`
seconds, the fallback (lines 188–191) sets `reset` to
`now + max(r, 0.5)` seconds (in ms: `now + max (1000*r) 500`) exactly when
`reset` is unset (falsy) or already in the past; when `reset` is already a
future time, the handler leaves the whole quota record unchanged — in
particular it never shortens `reset`. -/
theorem c5_retry_after_fallback (b : String) (L : LimitOptions)
    (h : List (String × String)) (r now : Int)
    (hra : parseIntJs (h.lookup "retry-after") = some r) :
    ((jsFalsy L.reset || jsLt L.reset (some now)) = true →
      (catchHandler ⟨true, b⟩ L (some ⟨some 429, some h⟩) now).1
        = { L with reset := some (now + max (1000 * r) 500) }) ∧
    (∀ t : Int, L.reset = some t → 0 ≤ now → now < t →
      (catchHandler ⟨true, b⟩ L (some ⟨some 429, some h⟩) now).1 = L) := by
  constructor
  · intro hcond
    have hdelta : retryResetDelta (parseIntJs (h.lookup "retry-after"))
        = some (max (1000 * r) 500) := by
      rw [hra]
      by_cases hr0 : r ≤ 0
      · have hz : jsLeZ (some r) = true := by
          simp only [jsLeZ, decide_eq_true_eq]; omega
        have hmax : max (1000 * r) 500 = 500 := max_eq_right (by omega)
        simp only [retryResetDelta, hz, if_true, hmax]
      · have hz : jsLeZ (some r) = false := by
          simp only [jsLeZ, decide_eq_false_iff_not]; omega
        have hmax : max (1000 * r) 500 = 1000 * r := max_eq_left (by omega)
        simp only [retryResetDelta, hz, jsMul, hmax]
        simp [mul_comm]
    simp [catchHandler, hcond, hdelta, jsAdd]
  · intro t ht hnow hfut
    have h1 : jsFalsy L.reset = false := by
      rw [ht]
      simp only [jsFalsy, decide_eq_false_iff_not]
      omega
    have h2 : jsLt L.reset (some now) = false := by
      rw [ht]
      simp only [jsLt, decide_eq_false_iff_not]
      omega
    simp [catchHandler, h1, h2]

/-- Witness for C5: `retry-after: 5` with `reset` unset-as-zero sets
`reset = now + 5000`; `retry-after: 1` with `reset = 1000 > now = 100`
leaves the record unchanged. -/
theorem c5_retry_after_fallback_witness :
    (catchHandler ⟨true, "b"⟩ ⟨some 0, some 0⟩
        (some ⟨some 429, some [("retry-after", "5")]⟩) 100).1
      = ⟨some 0, some 5100⟩ ∧
    (catchHandler ⟨true, "b"⟩ ⟨some 40, some 1000⟩
        (some ⟨some 429, some [("retry-after", "1")]⟩) 100).1
      = ⟨some 40, some 1000⟩ := by
  constructor
  · have h := (c5_retry_after_fallback "b" ⟨some 0, some 0⟩
      [("retry-after", "5")] 5 100 (by decide)).1 (by decide)
    rw [h]
    decide
  · exact (c5_retry_after_fallback "b" ⟨some 40, some 1000⟩
      [("retry-after", "1")] 1 100 (by decide)).2 1000 rfl (by decide)
      (by decide)

/-- Claim C6 names the intended behaviour; the code does not deliver it.
On an HTTP 500 failure the handler runs lines 203–204 and then evaluates
`Promise.reject(err)` WITHOUT returning it (line 207), so the `.catch`
callback returns `undefined` and the caller's promise FULFILS with
`undefined` instead of rejecting with the error.  (The request is indeed
neither retried nor re-queued — but the error never reaches the caller as a
rejection.) -/
theorem c6_error_swallowed :
    (catchHandler ⟨true, "b"⟩ ⟨some 5, some 100⟩
        (some ⟨some 500,
          some [("x-ratelimit-remaining", "39"), ("x-ratelimit-reset", "123")]⟩)
        50).2
      = .fulfilledUndefined ∧
    (catchHandler ⟨false, "b"⟩ ⟨some 5, some 100⟩ (some ⟨some 500, none⟩) 50).2
      = .fulfilledUndefined ∧
    CatchOutcome.fulfilledUndefined ≠ CatchOutcome.rejectedOriginal := by
  decide

/-- Claim C7 is false on the code: a failed non-429 response whose quota
headers do not parse does NOT leave the tracker unchanged — lines 203–204
assign `parseInt`'s `NaN` results unconditionally, clobbering
`remaining = 5` and `reset = 999` with NaN. -/
theorem c7_feedback_clobbers_cex :
    ((catchHandler ⟨true, "b"⟩ ⟨some 5, some 999⟩
        (some ⟨some 500, some [("x-ratelimit-remaining", "oops")]⟩) 50).1
      == (⟨some 5, some 999⟩ : LimitOptions)) = false ∧
    (catchHandler ⟨true, "b"⟩ ⟨some 5, some 999⟩
        (some ⟨some 500, some [("x-ratelimit-remaining", "oops")]⟩) 50).1
      = ⟨none, none⟩ := by
  decide

/-- Claim C7 (amended): on a non-429 failure whose quota headers are present
but unparsable, the handler overwrites `remaining` and `reset` with NaN
(rather than leaving them unchanged); it does not crash, and the request's
outcome is the same fulfilled-with-`undefined` as for well-formed headers. -/
theorem c7_malformed_feedback_nan (b : String) (L : LimitOptions)
    (s : Option Int) (h : List (String × String)) (now : Int)
    (hs : (s == some 429) = false)
    (h1 : parseIntJs (h.lookup "x-ratelimit-remaining") = none)
    (h2 : parseIntJs (h.lookup "x-ratelimit-reset") = none) :
    catchHandler ⟨true, b⟩ L (some ⟨s, some h⟩) now
      = (⟨none, none⟩, .fulfilledUndefined) := by
  simp [catchHandler, hs, h1, h2, jsMul]

/-- Witness for the amended C7: status 500, `x-ratelimit-remaining: oops`
and a missing `x-ratelimit-reset`. -/
theorem c7_malformed_feedback_nan_witness :
    catchHandler ⟨true, "b"⟩ ⟨some 5, some 999⟩
        (some ⟨some 500, some [("x-ratelimit-remaining", "oops")]⟩) 50
      = (⟨none, none⟩, .fulfilledUndefined) :=
  c7_malformed_feedback_nan "b" ⟨some 5, some 999⟩ (some 500)
    [("x-ratelimit-remaining", "oops")] 50 (by decide) (by decide) (by decide)

/-! ## Claims about endpoint resolution and query building -/

/-- Claim C8 is false on the code: resolving the two-placeholder template
`a/:x/:y` with the scalar bag `"v"` does not fail at all — `prepareEndpoint`
is total and raises no `InvalidParameters` error; it returns the template
with both placeholders intact and the scalar appended as a query string. -/
theorem c8_scalar_multi_cex :
    prepareEndpoint "a/:x/:y" (.str "v") = "a/:x/:y?v" ∧
    strContains (prepareEndpoint "a/:x/:y" (.str "v")) ":x" = true := by
  decide

/-- Claim C8 (amended): for a template with more than one placeholder (two or
more colons) and a scalar bag, resolution succeeds without substituting any
placeholder: the result is the template verbatim followed by the scalar as a
query string (`?`-prefixed when absent).  No error is surfaced. -/
theorem c8_scalar_multi_append (e s : String) (hc : 2 ≤ countColons e) :
    prepareEndpoint e (.str s)
      = e ++ (if startsWithQm s then "" else "?") ++ s := by
  have h1 : (countColons e == 1) = false := by
    simp only [beq_eq_false_iff_ne, ne_eq]
    omega
  simp [prepareEndpoint, h1]

/-- Witness for the amended C8 with an already-`?`-prefixed scalar. -/
theorem c8_scalar_multi_append_witness :
    prepareEndpoint "ab/:x/:y" (.str "?q=1") = "ab/:x/:y?q=1" := by
  have h := c8_scalar_multi_append "ab/:x/:y" "?q=1" (by decide)
  rw [h]
  decide

/-- Claim C9 names the comment's intent (lines 161–162), which the code does
not implement: the omit pattern `/:[a-z]/gi` lacks a `*`, so for
`movie/:id` the omitted props are `["i"]`, not `["id"]`.  The template
parameter `id` is consumed into the path (`movie/5`) yet still sent as a
query/body parameter — a template-consumed key is NOT excluded. -/
theorem c9_consumed_key_leaks_into_query :
    makeRequest "k" none ⟨false, "b"⟩ ⟨⟨none, none⟩, []⟩ none "movie/:id"
        (.obj [("id", "5")]) ⟨none, none⟩ 0
      = (⟨⟨none, none⟩, []⟩,
          .executed ⟨none, "b", "movie/5", [("api_key", "k"), ("id", "5")],
            [("api_key", "k"), ("id", "5")], none⟩) ∧
    colonLetterProps "movie/:id".toList = ["i"] := by
  decide

/-- Claim C10 is false in one corner: the string→`{}` normalization
(lines 157–159) runs AFTER the `:id`/session default (lines 151–155).  For
the empty-string bag `""` on an endpoint containing `:id` with an active
session, the bag is replaced by `{ id: '\x7baccount_id\x7d' }` — not by the
empty mapping — so the path is resolved with the sentinel and the query
gains an `id` entry. -/
theorem c10_session_default_cex :
    makeRequest "k" (some "sess") ⟨false, "b"⟩ ⟨⟨none, none⟩, []⟩ none
        "account/:id/x" (.str "") ⟨none, none⟩ 0
      = (⟨⟨none, none⟩, []⟩,
          .executed ⟨none, "b", "account/\x7baccount_id\x7d/x",
            [("api_key", "k"), ("session_id", "sess"),
              ("id", "\x7baccount_id\x7d")],
            [("api_key", "k"), ("session_id", "sess"),
              ("id", "\x7baccount_id\x7d")],
            none⟩) := by
  decide

/-- Claim C10 (amended): for every admitted submission whose parameter bag is
a raw string — except when the endpoint contains `:id`, the bag is the empty
string and a session is active (then the bag becomes the
`\x7baccount_id\x7d` mapping, see `c10_session_default_cex`) — the bag is
replaced by the empty mapping before resolving: the raw string is never
appended to the resolved path (the url is the endpoint verbatim) and
contributes nothing to the query parameters (the query is exactly the base
credentials/options). -/
theorem c10_string_bag_cleared (apiKey : String) (sid : Option String)
    (opts : MovieDbOptions) (st : MState) (m : Option HttpMethod)
    (e s : String) (o : RequestOptions) (now : Int)
    (hAdm : (opts.useDefaultLimits && jsLeZ st.limit.remaining) = false)
    (hCorner : (strContains e ":id" && rIsEmptyP (.str s)
      && sessionTruthy sid) = false) :
    makeRequest apiKey sid opts st m e (.str s) o now
      = (⟨if opts.useDefaultLimits then
            { st.limit with remaining := jsDec st.limit.remaining }
          else st.limit, st.requestQueue⟩,
          .executed ⟨m, opts.baseUrl, e, baseQuery apiKey sid o,
            baseQuery apiKey sid o,
            match o.timeout with
            | some t => if t == 0 then none else some t
            | none => none⟩) := by
  simp [makeRequest, hAdm, hCorner, rIsString, rObjList, omitKeys, mergeAList,
    prepareEndpoint]

/-- Witness for the amended C10: a non-empty raw query-string bag on an
endpoint without `:id` reaches the transport with the endpoint verbatim and
only the API key in the query. -/
theorem c10_string_bag_cleared_witness :
    makeRequest "k" none ⟨false, "b"⟩ ⟨⟨some 3, some 9⟩, []⟩ none "movie/top"
        (.str "q=1") ⟨none, none⟩ 0
      = (⟨⟨some 3, some 9⟩, []⟩,
          .executed ⟨none, "b", "movie/top", [("api_key", "k")],
            [("api_key", "k")], none⟩) := by
  have h := c10_string_bag_cleared "k" none ⟨false, "b"⟩ ⟨⟨some 3, some 9⟩, []⟩
    none "movie/top" "q=1" ⟨none, none⟩ 0 (by decide) (by decide)
  rw [h]
  decide
